import Mathlib

/-!
Verification development for the Live-MoCap-For-Blender repository.

The Python sources are shallowly embedded as Lean definitions:

* `live_mocap_tool/data_stream.py` — the `MocapReceiver` socket listener:
  its newline-framed buffer parsing, its single-slot latest-wins handoff
  queue, its exponential reconnect backoff, and `get_latest_data`.
* `live_mocap_tool/mocap_logic.py` — calibration offsets, quaternion
  application, the MediaPipe landmark path with its per-call smoother and
  two-bone IK solver, and the mixamorig auto-mapper.
* `live_mocap_tool/operators.py` — the start-capture operator's
  auto-mapping step.

Pure numeric data is modelled over `ℚ` where the Python code performs
exact-in-float arithmetic on the inputs of interest, and over `ℝ` for the
IK solver, whose algorithm involves square roots.  Fallible code is
modelled with `Option`/`Except`, and Python dictionaries with association
lists.
-/

namespace LiveMocap

/-! ## Stream receiver: newline framing (`data_stream.py`, lines 127-144)

The receive loop accumulates bytes in a text buffer and runs

```
while '\n' in buffer:
    mocap_line, buffer = buffer.split('\n', 1)
    if not mocap_line.strip():
        continue
    try:
        mocap_frame = json.loads(mocap_line)
        if self.data_queue.full():
            self.data_queue.get_nowait()
        self.data_queue.put_nowait(mocap_frame)
    except json.JSONDecodeError:
        buffer = buffer.split('\n', 1)[-1]
```

A buffer is represented by its list of complete (newline-terminated)
lines, each a `List Char`; the trailing partial line after the last
newline is never touched by the loop (`split` always keeps it as the
remainder) and is carried separately, so it is omitted here.  In this
representation `'\n' in buffer` is "the line list is nonempty",
`buffer.split('\n', 1)` is head/tail, and the error handler's
`buffer.split('\n', 1)[-1]` drops the head of the remaining line list
when that list is nonempty and otherwise leaves the buffer unchanged. -/

/-- A line of the receive buffer, as its characters. -/
abbrev Line := List Char

/-- Python's `not mocap_line.strip()`: the line has only whitespace. -/
def isBlankLine (l : Line) : Bool := l.all Char.isWhitespace

/-- The queue operation at `data_stream.py` lines 136-139: if the queue is
full (`maxsize` elements), pop the oldest frame with `get_nowait`, then
`put_nowait` the new frame.  The receiver is constructed with
`max_queue_size = 1`. -/
def enqueue_latest {Frame : Type} (maxsize : Nat) (q : List Frame) (f : Frame) :
    List Frame :=
  let q1 := if q.length = maxsize then q.drop 1 else q
  q1 ++ [f]

/-- The `while '\n' in buffer` framing loop of `_run_socket_listener`
(`data_stream.py` lines 127-144), parameterised by the JSON decoder
(`json.loads`, which returns `none` on `JSONDecodeError`).  State is the
remaining complete lines, the handoff queue, and the count of decode
failures reported (`print` warnings at line 142).  The returned `trace`
component records every frame passed to `put_nowait`, in order. -/
def process_buffer_lines {Frame : Type} (decode : Line → Option Frame)
    (maxsize : Nat) :
    List Line → List Frame → List Frame → Nat →
    List Line × List Frame × List Frame × Nat
  | [], q, trace, fails => ([], q, trace, fails)
  | line :: rest, q, trace, fails =>
    if isBlankLine line then
      process_buffer_lines decode maxsize rest q trace fails
    else
      match decode line with
      | some f =>
          process_buffer_lines decode maxsize rest
            (enqueue_latest maxsize q f) (trace ++ [f]) fails
      | none =>
          match rest with
          | [] => ([], q, trace, fails + 1)
          | _ :: rest' =>
              process_buffer_lines decode maxsize rest' q trace (fails + 1)

/-- A decoder for the JSON fragment consisting of unsigned integer
literals: a nonempty all-digit line parses to its value, every other line
raises `JSONDecodeError`.  This instantiates the `decode` parameter with
an honest restriction of `json.loads`. -/
def decodeIntLiteral (l : Line) : Option Nat :=
  if l ≠ [] ∧ l.all Char.isDigit then
    some (l.foldl (fun n c => n * 10 + (c.toNat - 48)) 0)
  else none

/-! ## Stream receiver: `get_latest_data` (`data_stream.py`, lines 167-175)

```
latest = None
while True:
    try:
        latest = self.data_queue.get_nowait()
    except Empty:
        return latest
```
-/

/-- The drain loop of `get_latest_data`: pop frames until the queue is
empty, remembering the last one popped.  Returns the Python return value
together with the (always empty) remaining queue. -/
def drain_loop {Frame : Type} (latest : Option Frame) :
    List Frame → Option Frame × List Frame
  | [] => (latest, [])
  | f :: q => drain_loop (some f) q

/-- `MocapReceiver.get_latest_data`: non-blocking retrieval of the newest
pending frame, draining the queue. -/
def get_latest_data {Frame : Type} (q : List Frame) : Option Frame × List Frame :=
  drain_loop none q

/-! ## Stream receiver: reconnect backoff (`data_stream.py`, lines 92-106)

```
reconnect_delay = 1.0
...
sock = self._connect_socket(timeout=reconnect_delay)
if not sock:
    time.sleep(reconnect_delay)
    reconnect_delay = min(reconnect_delay * 2, 8.0)
else:
    reconnect_delay = 1.0
```

All values taken by `reconnect_delay` are the floats 1.0, 2.0, 4.0, 8.0,
which are exact, so the delay is modelled over `ℕ`.  A connection-attempt
history is a list of outcomes, `true` for success. -/

/-- One update of `reconnect_delay` after a connection attempt:
on failure `min (d * 2) 8`, on success reset to the floor `1`. -/
def backoff_step (d : Nat) (success : Bool) : Nat :=
  if success then 1 else min (d * 2) 8

/-- The value of `reconnect_delay` after a history of connection-attempt
outcomes, starting from the initial `reconnect_delay = 1.0`.  On a failed
attempt the delay slept (`time.sleep(reconnect_delay)`) is the value
*before* its update, i.e. `delay_after` of the preceding history. -/
def delay_after (events : List Bool) : Nat :=
  events.foldl backoff_step 1

/-! ## Quaternions (`mathutils.Quaternion`, as used by `mocap_logic.py`)

Components are rationals (the float arithmetic of the scenarios proved
below is exact).  `mul` is the Hamilton product (`mathutils`'s `@`),
`inverted` is conjugate over squared norm. -/

/-- A quaternion in `(w, x, y, z)` order, as `mathutils.Quaternion`. -/
structure Quat where
  w : ℚ
  x : ℚ
  y : ℚ
  z : ℚ
deriving DecidableEq

namespace Quat

/-- The identity rotation `Quaternion()` = (1, 0, 0, 0). -/
def one : Quat := ⟨1, 0, 0, 0⟩

/-- Hamilton product, `mathutils`'s `q1 @ q2`. -/
def mul (a b : Quat) : Quat :=
  ⟨a.w * b.w - a.x * b.x - a.y * b.y - a.z * b.z,
   a.w * b.x + a.x * b.w + a.y * b.z - a.z * b.y,
   a.w * b.y - a.x * b.z + a.y * b.w + a.z * b.x,
   a.w * b.z + a.x * b.y - a.y * b.x + a.z * b.w⟩

/-- Squared norm (`mathutils` dot of a quaternion with itself). -/
def normSq (q : Quat) : ℚ := q.w * q.w + q.x * q.x + q.y * q.y + q.z * q.z

/-- `mathutils.Quaternion.inverted()`: conjugate divided by squared norm. -/
def inverted (q : Quat) : Quat :=
  ⟨q.w / q.normSq, -q.x / q.normSq, -q.y / q.normSq, -q.z / q.normSq⟩

end Quat

/-- Association-list lookup, modelling Python `dict` access
(`d[k]` / `k in d` / `dict.get`); later insertions shadow earlier ones,
so lookup scans from the right. -/
def alookup {α : Type} (m : List (String × α)) (k : String) : Option α :=
  (m.reverse.find? (fun p => p.1 = k)).map Prod.snd

/-! ## The rig, as seen by `mocap_logic.py`

`mocap_logic.py` reads of a Blender armature object only: whether
`arm_obj.type == 'ARMATURE'`, the pose-bone collection
(`arm_obj.pose.bones`, here names with their current
`rotation_quaternion`), and the mode flags used by `apply_mocap_data`. -/

/-- The slice of a Blender object used by `mocap_logic.py`. -/
structure Armature where
  /-- Whether `obj.type == 'ARMATURE'`. -/
  isArmature : Bool
  /-- `obj.pose.bones`: names with current `rotation_quaternion`. -/
  bones : List (String × Quat)
  /-- Whether `obj.mode == 'POSE'` already holds on entry. -/
  inPoseMode : Bool
  /-- Whether `bpy.ops.object.mode_set(mode='POSE')` would succeed. -/
  canSetPoseMode : Bool

/-- Names of the armature's pose bones. -/
def Armature.poseNames (a : Armature) : List String := a.bones.map Prod.fst

/-! ## `apply_rotation` (`mocap_logic.py`, lines 73-97)

```
if rotation_data and len(rotation_data) == 4:
    mocap_quat = Quaternion((rotation_data[0], ..., rotation_data[3]))
    if blender_bone_name in CALIBRATION_OFFSETS:
        offset_quat = CALIBRATION_OFFSETS[blender_bone_name]
        final_quat = offset_quat @ mocap_quat
    else:
        final_quat = mocap_quat
    pose_bone.rotation_mode = 'QUATERNION'
    pose_bone.rotation_quaternion = final_quat
```

The result is the quaternion written to the bone, `none` when the guard
rejects the data and nothing is written.  `CALIBRATION_OFFSETS` is passed
explicitly as an association list. -/

/-- The rotation written to a pose bone by `apply_rotation`, given the
calibration-offset store, the bone's name, and the incoming
`[w, x, y, z]` rotation data. -/
def apply_rotation (offsets : List (String × Quat)) (bone_name : String)
    (rotation_data : List ℚ) : Option Quat :=
  match rotation_data with
  | [w, x, y, z] =>
      let mocap_quat : Quat := ⟨w, x, y, z⟩
      match alookup offsets bone_name with
      | some offset_quat => some (offset_quat.mul mocap_quat)
      | none => some mocap_quat
  | _ => none

/-! ## `calibrate_pose` (`mocap_logic.py`, lines 191-225)

```
CALIBRATION_OFFSETS.clear()
if not armature_obj or armature_obj.type != 'ARMATURE':
    print("Calibration Error: Target object is not an Armature.")
    return False
...
for blender_name in bone_map.values():
    pose_bone = pose_bones.get(blender_name)
    if pose_bone:
        CALIBRATION_OFFSETS[blender_name] = pose_bone.rotation_quaternion.inverted()
...
return True
```

Note the global store is cleared *before* the armature check.  The
function takes the store's prior value and the live bone map
(`mocap name → blender name` pairs) and returns the new store with the
Python return value. -/

/-- `calibrate_pose`: result is the new `CALIBRATION_OFFSETS` store
paired with the boolean the Python function returns. -/
def calibrate_pose (offsets0 : List (String × Quat)) (arm : Option Armature)
    (bone_map : List (String × String)) : List (String × Quat) × Bool :=
  -- CALIBRATION_OFFSETS.clear()
  let offsets : List (String × Quat) := []
  match arm with
  | none => (offsets, false)
  | some a =>
      if a.isArmature then
        let offsets :=
          bone_map.foldl (fun acc p =>
            match alookup a.bones p.2 with
            | some q => acc ++ [(p.2, q.inverted)]
            | none => acc) offsets
        (offsets, true)
      else (offsets, false)

/-- The condition under which `calibrate_pose` (and `apply_mocap_data`)
rejects the target rig: absent, or not an armature. -/
def invalidRig (arm : Option Armature) : Prop :=
  arm = none ∨ ∃ a, arm = some a ∧ a.isArmature = false

/-! ## `auto_map_mixamorig` (`mocap_logic.py`, lines 20-71)

```
arm_obj = props.target_armature
if not arm_obj or arm_obj.type != 'ARMATURE':
    return
pose_names = {pb.name for pb in arm_obj.pose.bones}
wanted = { 'Hips': 'mixamorig:Hips', ... }
props.mapping_collection.clear()
for mocap_name, pattern in wanted.items():
    if pattern in pose_names:
        found = pattern
    else:
        short = pattern.split(':')[-1]
        found = next((bn for bn in pose_names if short.lower() in bn.lower()), None)
    if found:
        item = props.mapping_collection.add()
        item.mocap_name = mocap_name
        item.blender_name = found
```

The Python `pose_names` set iterates in an unspecified order; it is
modelled by the bone list's order, which no claim depends on. -/

/-- One entry of `props.mapping_collection`. -/
structure MappingItem where
  mocap_name : String
  blender_name : String
deriving DecidableEq

/-- The `wanted` dictionary of `auto_map_mixamorig`, in insertion order. -/
def wanted : List (String × String) :=
  [("Hips", "mixamorig:Hips"),
   ("Spine", "mixamorig:Spine"),
   ("Neck", "mixamorig:Neck"),
   ("Head", "mixamorig:Head"),
   ("LeftShoulder", "mixamorig:LeftShoulder"),
   ("LeftElbow", "mixamorig:LeftForeArm"),
   ("LeftWrist", "mixamorig:LeftHand"),
   ("RightShoulder", "mixamorig:RightShoulder"),
   ("RightElbow", "mixamorig:RightForeArm"),
   ("RightWrist", "mixamorig:RightHand"),
   ("LeftUpLeg", "mixamorig:LeftUpLeg"),
   ("LeftLeg", "mixamorig:LeftLeg"),
   ("RightUpLeg", "mixamorig:RightUpLeg"),
   ("RightLeg", "mixamorig:RightLeg")]

/-- Python's substring test `needle in hay` on character lists. -/
def containsSub (needle hay : List Char) : Bool :=
  hay.tails.any (fun t => needle.isPrefixOf t)

/-- Python's `pattern.split(':')[-1]` on the pattern's characters: the
part after the last colon, the whole string when there is none. -/
def afterLastColon (l : List Char) : List Char :=
  l.foldl (fun acc c => if c = ':' then [] else acc ++ [c]) []

/-- Python's `s.lower()` on characters. -/
def lowerChars (l : List Char) : List Char := l.map Char.toLower

/-- The per-pattern search of `auto_map_mixamorig`: exact match first,
else the first pose-bone name containing the pattern's part after the
colon, case-insensitively (`short.lower() in bn.lower()`). -/
def findMatch (pose_names : List String) (pattern : String) : Option String :=
  if pose_names.contains pattern then some pattern
  else
    let short := afterLastColon pattern.data
    pose_names.find? (fun bn => containsSub (lowerChars short) (lowerChars bn.data))

/-- `auto_map_mixamorig`: takes the target armature (`props.target_armature`)
and the current `props.mapping_collection`, returns the collection after
the call. -/
def auto_map_mixamorig (arm : Option Armature) (coll : List MappingItem) :
    List MappingItem :=
  match arm with
  | none => coll
  | some a =>
      if a.isArmature then
        let pose_names := a.poseNames
        -- props.mapping_collection.clear()
        let cleared : List MappingItem := []
        wanted.foldl (fun acc p =>
          match findMatch pose_names p.2 with
          | some found => acc ++ [⟨p.1, found⟩]
          | none => acc) cleared
      else coll

/-! ## The MediaPipe landmark path (`mocap_logic.py`, lines 228-448)

`apply_mediapipe_pose(armature_obj, mediapipe_data)` reads
`mediapipe_data['pose']`, a list of `[x, y, z]` landmarks.  Landmarks are
modelled as rational triples; `lm_to_vec` and the `Vector(((p[0]-0.5)*2.0,
(0.5-p[1])*2.0, -p[2]))` conversions are exact over `ℚ`.

The quaternion actually computed by `set_bone_direction` involves
`normalized()` and `angle()` (square roots and arccos); no claim depends
on its value, so a bone write is recorded as the bone name with the two
endpoint vectors that determine the written rotation.  Whether a write
happens at all (missing bone, zero-length direction, index errors,
guards) is modelled exactly. -/

/-- A 3D vector with rational components (`mathutils.Vector`). -/
structure Vec3 where
  x : ℚ
  y : ℚ
  z : ℚ
deriving DecidableEq

namespace Vec3

/-- Componentwise sum. -/
def add (a b : Vec3) : Vec3 := ⟨a.x + b.x, a.y + b.y, a.z + b.z⟩

/-- Componentwise difference. -/
def sub (a b : Vec3) : Vec3 := ⟨a.x - b.x, a.y - b.y, a.z - b.z⟩

/-- Scalar multiple. -/
def smul (c : ℚ) (a : Vec3) : Vec3 := ⟨c * a.x, c * a.y, c * a.z⟩

/-- Squared length.  Over `ℚ` the Python test `vec.length == 0` is
equivalent to `lengthSq vec = 0`. -/
def lengthSq (a : Vec3) : ℚ := a.x * a.x + a.y * a.y + a.z * a.z

end Vec3

/-- A raw MediaPipe landmark `[x, y, z]`. -/
structure Landmark where
  x : ℚ
  y : ℚ
  z : ℚ
deriving DecidableEq

/-- `lm_to_vec` (`mocap_logic.py` lines 287-290):
`Vector(((lm[0] - 0.5) * 2.0, (0.5 - lm[1]) * 2.0, -lm[2]))`.  The legs
and axial landmarks use the same formula written out inline. -/
def lm_to_vec (lm : Landmark) : Vec3 :=
  ⟨(lm.x - 1/2) * 2, (1/2 - lm.y) * 2, -lm.z⟩

/-- `smooth_lm` (`mocap_logic.py` lines 294-302) acting on the `_LAST_LM`
dictionary (landmark index to last smoothed vector):

```
prev = _LAST_LM.get(idx)
if prev is None:
    _LAST_LM[idx] = vec.copy()
    return vec
res = prev * (1.0 - alpha) + vec * alpha
_LAST_LM[idx] = res
return res
```

Returns the smoothed vector and the updated dictionary. -/
def smooth_lm (last_lm : List (Nat × Vec3)) (idx : Nat) (vec : Vec3)
    (alpha : ℚ) : Vec3 × List (Nat × Vec3) :=
  match (last_lm.find? (fun p => p.1 = idx)).map Prod.snd with
  | none => (vec, last_lm ++ [(idx, vec)])
  | some prev =>
      let res := (prev.smul (1 - alpha)).add (vec.smul alpha)
      (res, (last_lm.filter (fun p => p.1 ≠ idx)) ++ [(idx, res)])

/-- Python `pose_list[i]`: raises `IndexError` when out of range. -/
def getLm (pose_list : List Landmark) (i : Nat) : Except Unit Landmark :=
  match pose_list.get? i with
  | some p => .ok p
  | none => .error ()

/-- Lines 292-317 of `mocap_logic.py`: `_LAST_LM = {}` is created afresh
inside this very call, then

```
try:
    ls = smooth_lm(11, lm_to_vec(pose_list[11]))
    ...
    rw = smooth_lm(16, lm_to_vec(pose_list[16]))
except Exception:
    return
```

Returns the six smoothed shoulder/elbow/wrist vectors, or `none` when an
index error is caught and the function returns. -/
def extract_smoothed_arms (pose_list : List Landmark) :
    Option (Vec3 × Vec3 × Vec3 × Vec3 × Vec3 × Vec3) :=
  -- _LAST_LM = {}  (local to each apply_mediapipe_pose call)
  let last_lm : List (Nat × Vec3) := []
  -- the six indexed reads happen before any smoothing state is consulted;
  -- the uniform `.error ()` of `getLm` makes the all-ok match equivalent
  -- to Python's left-to-right short-circuit on the first IndexError
  match getLm pose_list 11, getLm pose_list 12, getLm pose_list 13,
      getLm pose_list 14, getLm pose_list 15, getLm pose_list 16 with
  | .ok p11, .ok p12, .ok p13, .ok p14, .ok p15, .ok p16 =>
      let (ls, st1) := smooth_lm last_lm 11 (lm_to_vec p11) (3/5)
      let (rs, st2) := smooth_lm st1 12 (lm_to_vec p12) (3/5)
      let (le, st3) := smooth_lm st2 13 (lm_to_vec p13) (3/5)
      let (re, st4) := smooth_lm st3 14 (lm_to_vec p14) (3/5)
      let (lw, st5) := smooth_lm st4 15 (lm_to_vec p15) (3/5)
      let (rw, _) := smooth_lm st5 16 (lm_to_vec p16) (3/5)
      some (ls, rs, le, re, lw, rw)
  | _, _, _, _, _, _ => none

/-- A recorded bone mutation: the bone written and the two endpoint
vectors from which `set_bone_direction` computes the rotation. -/
structure BoneWrite where
  bone : String
  src : Vec3
  tgt : Vec3
deriving DecidableEq

/-- `set_bone_direction` (`mocap_logic.py` lines 320-355): no write when
the pose bone is missing or the direction has zero length; otherwise one
write of the rotation determined by the two endpoints (composed with any
calibration offset). -/
def set_bone_direction (hasBone : String → Bool) (source_vec target_vec : Vec3)
    (bone_name : String) : List BoneWrite :=
  if hasBone bone_name then
    if (target_vec.sub source_vec).lengthSq = 0 then []
    else [⟨bone_name, source_vec, target_vec⟩]
  else []

/-- `apply_mediapipe_pose` (`mocap_logic.py` lines 228-448), parameterised
by the rig: `resolve` is `resolve_bone_name` (mocap joint name to an
existing-bone candidate, `none` when resolution fails) and `hasBone` is
membership in `pose_bones`.  The result is the list of bone writes in
order, or `Except.error` for the uncaught `IndexError` raised while the
`segments` list is built (lines 399-408, where `pose_list[23]`,
`pose_list[25]`, `pose_list[24]`, `pose_list[26]` are read outside any
`try`).  Control flow:

* line 236: `if not pose_list or len(pose_list) < 16: return`;
* lines 309-317: landmark extraction with its internal `try/except`;
* lines 399-419: `segments` construction and the proximal-first
  application loop;
* lines 421-448: hips/spine/neck/head block, in a `try/except: pass`
  (its indices 0, 11, 12, 23, 24 all exist whenever this point is
  reached, since building `segments` needed index 26). -/
def apply_mediapipe_pose (resolve : String → Option String)
    (hasBone : String → Bool) (pose_list : List Landmark) :
    Except Unit (List BoneWrite) :=
  if pose_list.length < 16 then .ok []
  else
    match extract_smoothed_arms pose_list with
    | none => .ok []
    | some (ls, rs, le, re, lw, rw) =>
        -- segments construction: unguarded landmark reads (Python order:
        -- 23, 23, 25, 24, 26; all raise the same IndexError, and they all
        -- precede any bone write, so the all-ok match is equivalent)
        match getLm pose_list 23, getLm pose_list 25, getLm pose_list 24,
            getLm pose_list 26 with
        | .ok p23, .ok p25, .ok p24, .ok p26 =>
            let segments : List (String × String × Vec3 × Vec3) :=
              [("LeftShoulder", "LeftElbow", ls, le),
               ("LeftElbow", "LeftWrist", le, lw),
               ("RightShoulder", "RightElbow", rs, re),
               ("RightElbow", "RightWrist", re, rw),
               ("Hips", "LeftUpLeg", (ls.add le).smul (1/2), lm_to_vec p23),
               ("LeftUpLeg", "LeftLeg", lm_to_vec p23, lm_to_vec p25),
               ("RightUpLeg", "RightLeg", lm_to_vec p24, lm_to_vec p26)]
            let segWrites := segments.foldl (fun acc s =>
              match s with
              | (mocap_a, mocap_b, a_vec, b_vec) =>
                match resolve mocap_a with
                | some a_name =>
                    acc ++ set_bone_direction hasBone a_vec b_vec a_name
                | none =>
                    match resolve mocap_b with
                    | some b_name =>
                        acc ++ set_bone_direction hasBone a_vec b_vec b_name
                    | none => acc) []
            -- lines 421-448: axial bones, inside `try/except: pass`; the
            -- reads of indices 23, 24, 11, 12 precede every write of the
            -- block, while index 0 (`nose`) is read after the hip and
            -- spine writes, which therefore survive its IndexError
            let axialWrites :=
              match getLm pose_list 23, getLm pose_list 24,
                  getLm pose_list 11, getLm pose_list 12 with
              | .ok q23, .ok q24, .ok q11, .ok q12 =>
                  let hips_mid := ((lm_to_vec q23).add (lm_to_vec q24)).smul (1/2)
                  let spine := lm_to_vec q11
                  let neck_mid := ((lm_to_vec q11).add (lm_to_vec q12)).smul (1/2)
                  let hipW :=
                    match resolve "Hips" with
                    | some bn => set_bone_direction hasBone hips_mid spine bn
                    | none => []
                  let spineW :=
                    match resolve "Spine" with
                    | some bn => set_bone_direction hasBone hips_mid neck_mid bn
                    | none => []
                  match getLm pose_list 0 with
                  | .ok q0 =>
                      let nose := lm_to_vec q0
                      let neckW :=
                        match resolve "Neck" with
                        | some bn => set_bone_direction hasBone neck_mid nose bn
                        | none => []
                      let headW :=
                        match resolve "Head" with
                        | some bn => set_bone_direction hasBone neck_mid nose bn
                        | none => []
                      hipW ++ spineW ++ neckW ++ headW
                  | .error _ => hipW ++ spineW
              | _, _, _, _ => []
            .ok (segWrites ++ axialWrites)
        | _, _, _, _ => .error ()

/-! ## `apply_mocap_data` (`mocap_logic.py`, lines 142-189)

```
if not armature_obj or armature_obj.type != 'ARMATURE':
    print("Error: Target object is not a valid Armature.")
    return
...
if armature_obj.mode != 'POSE':
    try:
        bpy.ops.object.mode_set(mode='POSE')
    except RuntimeError as e:
        print(f"Error: Could not set Pose Mode ...")
        return
<apply mediapipe / mapped-joint rotations>
```

The Python function always returns `None`; there is no error value a
caller could observe.  To state this, the model's first result component
has the type a returned rig-state error would have — it is `none` on
every path.  The bone-application body executed once the rig checks pass
is abstracted as the `body` parameter (its writes and log lines); the
claims settled against this definition concern only the rig checks. -/

/-- The rig-state failure taxonomy named by the specification. -/
inductive RigStateError where
  | invalidArmature
  | modeSetFailed
deriving DecidableEq

/-- `apply_mocap_data`: Python return value (always `None`, hence the
first component is `none` on every path), bone writes performed, and
console log lines printed. -/
def apply_mocap_data (arm : Option Armature)
    (body : List BoneWrite × List String) :
    Option RigStateError × List BoneWrite × List String :=
  match arm with
  | none => (none, [], ["Error: Target object is not a valid Armature."])
  | some a =>
      if a.isArmature then
        if a.inPoseMode then (none, body.1, body.2)
        else if a.canSetPoseMode then (none, body.1, body.2)
        else
          (none, [],
           ["Error: Could not set Pose Mode on armature. Aborting update."])
      else (none, [], ["Error: Target object is not a valid Armature."])

/-- A retargeting session's successive `apply_mediapipe_pose` calls, one
per frame.  Because `_LAST_LM = {}` is a local variable created inside
every call (`mocap_logic.py` line 293), successive calls share no
smoothing state: the session semantics of the smoothed arm landmarks is
the independent per-frame extraction. -/
def session_smoothed_arms (frames : List (List Landmark)) :
    List (Option (Vec3 × Vec3 × Vec3 × Vec3 × Vec3 × Vec3)) :=
  frames.map extract_smoothed_arms

/-! ## `two_bone_ik` (`mocap_logic.py`, lines 357-396)

```
d = (target - root).length
eps = 1e-6
if d < eps:
    return
maxd = max(L1 + L2 - 1e-3, eps)          # computed but never used
d_clamped = min(max(d, abs(L1 - L2) + 1e-3), L1 + L2 - 1e-3)
dir_rt = (target - root).normalized()
a = (L1 * L1 - L2 * L2 + d_clamped * d_clamped) / (2.0 * d_clamped)
joint_pos = root + dir_rt * a
set_bone_direction(root, joint_pos, upper_name)
set_bone_direction(joint_pos, target, lower_name)
```

The solver's arithmetic involves square roots (`length`, `normalized`),
so it is modelled over `ℝ`.  The result is the solved joint position
`joint_pos`, and `none` for the early returns (missing bone, or
`d < eps`) on which no bone is touched and the division producing `a` is
never reached. -/

/-- A 3D vector with real components, for the IK solver. -/
structure Vec3R where
  x : ℝ
  y : ℝ
  z : ℝ

namespace Vec3R

/-- Componentwise sum. -/
def add (a b : Vec3R) : Vec3R := ⟨a.x + b.x, a.y + b.y, a.z + b.z⟩

/-- Componentwise difference. -/
def sub (a b : Vec3R) : Vec3R := ⟨a.x - b.x, a.y - b.y, a.z - b.z⟩

/-- Scalar multiple. -/
def smul (c : ℝ) (a : Vec3R) : Vec3R := ⟨c * a.x, c * a.y, c * a.z⟩

/-- `mathutils.Vector.length`. -/
noncomputable def length (a : Vec3R) : ℝ :=
  Real.sqrt (a.x ^ 2 + a.y ^ 2 + a.z ^ 2)

/-- `mathutils.Vector.normalized()`: the vector scaled by the reciprocal
of its length. -/
noncomputable def normalized (a : Vec3R) : Vec3R := a.smul (1 / a.length)

end Vec3R

open Classical in
/-- `two_bone_ik`, with the rig abstracted to whether the two pose bones
exist (`hasUpper`, `hasLower`) and their rest lengths `L1`, `L2`. -/
noncomputable def two_bone_ik (hasUpper hasLower : Bool) (L1 L2 : ℝ)
    (root_vec tip_vec : Vec3R) : Option Vec3R :=
  if hasUpper = false ∨ hasLower = false then none
  else
    let target := tip_vec
    let root := root_vec
    let d := (target.sub root).length
    let eps : ℝ := 1 / 1000000
    if d < eps then none
    else
      let d_clamped := min (max d (|L1 - L2| + 1 / 1000)) (L1 + L2 - 1 / 1000)
      let dir_rt := (target.sub root).normalized
      let a := (L1 * L1 - L2 * L2 + d_clamped * d_clamped) / (2 * d_clamped)
      some (root.add (dir_rt.smul a))

/-- A landmark at image centre: `lm_to_vec` sends it to the origin. -/
def baseLm : Landmark := ⟨1/2, 1/2, 0⟩

/-- A landmark at the right image edge, distinct from `baseLm`. -/
def hotLm : Landmark := ⟨1, 1/2, 0⟩

/-! ## Theorems -/

/-- Pushing a frame into a queue holding at most one frame always leaves
exactly that frame. -/
theorem enqueue_latest_of_small {Frame : Type} (q : List Frame) (f : Frame)
    (h : q.length ≤ 1) : enqueue_latest 1 q f = [f] := by
  match q with
  | [] => rfl
  | [a] => rfl
  | a :: b :: t => simp at h

/-- Folding the latest-wins enqueue over a nonempty batch ending in `f`
leaves exactly `[f]`. -/
theorem foldl_enqueue_snoc {Frame : Type} (fs : List Frame) (f : Frame) :
    ∀ q : List Frame, q.length ≤ 1 →
      (fs ++ [f]).foldl (enqueue_latest 1) q = [f] := by
  induction fs with
  | nil =>
      intro q hq
      simpa using enqueue_latest_of_small q f hq
  | cons a fs ih =>
      intro q hq
      have ha : enqueue_latest 1 q a = [a] := enqueue_latest_of_small q a hq
      simp only [List.cons_append, List.foldl_cons, ha]
      exact ih [a] (by simp)

/-- The latest-wins queue never exceeds one pending frame. -/
theorem foldl_enqueue_length {Frame : Type} (fs : List Frame) :
    ∀ q : List Frame, q.length ≤ 1 →
      (fs.foldl (enqueue_latest 1) q).length ≤ 1 := by
  induction fs with
  | nil => intro q hq; simpa using hq
  | cons a fs ih =>
      intro q hq
      have ha : enqueue_latest 1 q a = [a] := enqueue_latest_of_small q a hq
      simp only [List.foldl_cons, ha]
      exact ih [a] (by simp)

/-- C1: the receive loop's decode-error handling.  On the stream
`"1\nx\n2\n"` — one malformed line between two valid newline-terminated
lines, all in the buffer together — the framing loop decodes only the
first valid line (trace `[1]`) and reports exactly one failure: the error
handler re-splits the already-advanced buffer and so throws away the
second valid line as well, contradicting the claim that both valid lines
are decoded.  The last three conjuncts certify the stream's shape: the
outer lines are valid JSON for the decoder, the middle one is not. -/
theorem malformed_line_also_discards_following_valid_line :
    process_buffer_lines decodeIntLiteral 1 [['1'], ['x'], ['2']] [] [] 0 =
      ([], [1], [1], 1) ∧
    decodeIntLiteral ['1'] = some 1 ∧
    decodeIntLiteral ['x'] = none ∧
    decodeIntLiteral ['2'] = some 2 := by decide

/-- C6: the handoff queue between receiver and consumer.  After any
nonempty batch of enqueues with no intervening read, the queue holds at
most one frame, `get_latest_data` returns exactly the newest frame
leaving an empty queue, and an immediately following call returns
`none`. -/
theorem handoff_queue_latest_wins {Frame : Type} (fs : List Frame)
    (h : fs ≠ []) :
    (fs.foldl (enqueue_latest 1) []).length ≤ 1 ∧
    get_latest_data (fs.foldl (enqueue_latest 1) []) = (fs.getLast?, []) ∧
    get_latest_data (get_latest_data (fs.foldl (enqueue_latest 1) [])).2 =
      (none, []) := by
  have hfold : fs.foldl (enqueue_latest 1) [] = [fs.getLast h] := by
    conv_lhs => rw [← List.dropLast_append_getLast h]
    exact foldl_enqueue_snoc _ _ _ (by simp)
  refine ⟨foldl_enqueue_length fs [] (by simp), ?_, ?_⟩
  · rw [hfold, List.getLast?_eq_getLast fs h]
    rfl
  · rw [hfold]
    rfl

/-- Witness for C6 at the concrete batch `[1, 2, 3]`. -/
theorem handoff_queue_latest_wins_witness :
    (([1, 2, 3].foldl (enqueue_latest 1) []).length ≤ 1) ∧
    get_latest_data ([1, 2, 3].foldl (enqueue_latest 1) []) =
      ([1, 2, 3].getLast?, []) ∧
    get_latest_data (get_latest_data ([1, 2, 3].foldl (enqueue_latest 1) [])).2 =
      ((none : Option Nat), []) :=
  handoff_queue_latest_wins [1, 2, 3] (by decide)

/-- The backoff delay never exceeds the 8-unit ceiling. -/
theorem foldl_backoff_le (es : List Bool) :
    ∀ d : Nat, d ≤ 8 → es.foldl backoff_step d ≤ 8 := by
  induction es with
  | nil => intro d hd; simpa using hd
  | cons e es ih =>
      intro d hd
      refine ih (backoff_step d e) ?_
      cases e <;> simp [backoff_step] <;> omega

/-- The delay after `k` consecutive failures from the floor is the capped
power of two. -/
theorem foldl_backoff_replicate (k : Nat) :
    (List.replicate k false).foldl backoff_step 1 = min (2 ^ k) 8 := by
  induction k with
  | zero => rfl
  | succ k ih =>
      rw [List.replicate_succ', List.foldl_append, ih]
      have h2 : (2 : ℕ) ^ (k + 1) = 2 * 2 ^ k := by ring
      simp only [List.foldl_cons, List.foldl_nil, backoff_step,
        Bool.false_eq_true, if_false]
      omega

/-- C7: reconnect backoff.  The delay starts at 1, is capped by 8,
resets to 1 on any success, doubles (up to the cap) on each failure —
strictly doubling whenever the doubled value is within the cap — and
after a success followed by `k` consecutive failures equals
`min (2 ^ k) 8`. -/
theorem reconnect_backoff_doubles_caps_resets (es : List Bool) (k : Nat) :
    delay_after [] = 1 ∧
    delay_after es ≤ 8 ∧
    delay_after (es ++ [true]) = 1 ∧
    delay_after (es ++ [false]) = min (2 * delay_after es) 8 ∧
    (2 * delay_after es ≤ 8 →
      delay_after (es ++ [false]) = 2 * delay_after es) ∧
    delay_after (es ++ true :: List.replicate k false) = min (2 ^ k) 8 := by
  refine ⟨rfl, foldl_backoff_le es 1 (by norm_num), ?_, ?_, ?_, ?_⟩
  · simp [delay_after, List.foldl_append, backoff_step]
  · simp [delay_after, List.foldl_append, backoff_step, Nat.mul_comm]
  · intro hle
    simp only [delay_after] at hle ⊢
    simp only [List.foldl_append, List.foldl_cons, List.foldl_nil,
      backoff_step, Bool.false_eq_true, if_false]
    omega
  · simp only [delay_after, List.foldl_append, List.foldl_cons,
      backoff_step, if_pos rfl]
    exact foldl_backoff_replicate k

/-- Witness for C7: after one failure the delay has strictly doubled to
2, and a success followed by three failures yields `min (2 ^ 3) 8`. -/
theorem reconnect_backoff_doubles_caps_resets_witness :
    delay_after ([false] ++ [false]) = 2 * delay_after [false] ∧
    delay_after ([false] ++ true :: List.replicate 3 false) = min (2 ^ 3) 8 :=
  ⟨(reconnect_backoff_doubles_caps_resets [false] 3).2.2.2.2.1 (by decide),
   (reconnect_backoff_doubles_caps_resets [false] 3).2.2.2.2.2⟩

/-- C2: landmark smoothing across frames.  Over a two-frame session whose
landmark 11 moves from the image centre (`baseLm`) to the image edge
(`hotLm`), the second frame's "smoothed" value is the raw converted
sample, because `_LAST_LM` is a local dictionary re-created inside every
`apply_mediapipe_pose` call; it is not the exponential moving average
`previous * (1 - 0.6) + raw * 0.6` that carrying the state across frames
would produce (second conjunct: the two values differ). -/
theorem smoothing_state_not_carried_across_frames :
    (session_smoothed_arms
      [List.replicate 17 baseLm,
       List.replicate 11 baseLm ++ [hotLm] ++ List.replicate 5 baseLm]).map
      (Option.map (fun t => t.1)) =
      [some (lm_to_vec baseLm), some (lm_to_vec hotLm)] ∧
    lm_to_vec hotLm ≠
      ((lm_to_vec baseLm).smul (1 - 3/5)).add ((lm_to_vec hotLm).smul (3/5)) := by
  constructor
  · rfl
  · norm_num [lm_to_vec, Vec3.smul, Vec3.add, baseLm, hotLm]

/-- C3 counterexample: calling `calibrate_pose` with no armature while an
offset is stored empties the store: the calibration-offset mapping is not
left unchanged by the failing call. -/
theorem calibrate_invalid_rig_changes_offsets :
    calibrate_pose [("Bone", (⟨0, 1, 0, 0⟩ : Quat))] none [] = ([], false) ∧
    (calibrate_pose [("Bone", (⟨0, 1, 0, 0⟩ : Quat))] none []).1 ≠
      [("Bone", (⟨0, 1, 0, 0⟩ : Quat))] := by
  refine ⟨rfl, ?_⟩
  simp [calibrate_pose]

/-- C3 amended: with an invalid target rig (absent or not an armature),
`calibrate_pose` reports failure and performs no partial population, but
the stored mapping has been cleared by the unconditional
`CALIBRATION_OFFSETS.clear()` that precedes the validation, so after the
failed call it is empty rather than unchanged. -/
theorem calibrate_invalid_rig_fails_with_cleared_offsets
    (offsets0 : List (String × Quat)) (arm : Option Armature)
    (bone_map : List (String × String)) (h : invalidRig arm) :
    calibrate_pose offsets0 arm bone_map = ([], false) := by
  rcases h with h | ⟨a, rfl, ha⟩
  · subst h; rfl
  · simp [calibrate_pose, ha]

/-- Witness for the amended C3: a non-armature target with a stored
offset and a nonempty bone map. -/
theorem calibrate_invalid_rig_fails_witness :
    calibrate_pose [("Bone", (⟨1, 0, 0, 0⟩ : Quat))]
      (some ⟨false, [], true, true⟩) [("Hips", "Bone")] = ([], false) :=
  calibrate_invalid_rig_fails_with_cleared_offsets _ _ _ (Or.inr ⟨_, rfl, rfl⟩)

/-- C4: with exactly 17 landmark entries — the claim's threshold for
upper-body inference to proceed — `apply_mediapipe_pose` raises an
uncaught `IndexError` while building the `segments` list (reading the leg
landmark at index 23), so no bone is written; with 16 entries the guard
`len(pose_list) < 16` admits the list but the read of index 16 aborts the
landmark extraction (no writes), and with 15 entries the guard discards
the set.  The rig resolves every name, so the absence of writes is not
due to resolution. -/
theorem seventeen_landmarks_error_before_any_write :
    apply_mediapipe_pose (fun n => some n) (fun _ => true)
      (List.replicate 17 baseLm) = .error () ∧
    apply_mediapipe_pose (fun n => some n) (fun _ => true)
      (List.replicate 16 baseLm) = .ok [] ∧
    apply_mediapipe_pose (fun n => some n) (fun _ => true)
      (List.replicate 15 baseLm) = .ok [] :=
  ⟨rfl, rfl, rfl⟩

/-- C5 counterexample: with a target that is not an armature, the value
`apply_mocap_data` hands back to its caller is `none` — no
`RigStateError` is returned synchronously; the condition is only printed.
The call itself is aborted: no bone write from the body is performed. -/
theorem apply_mocap_invalid_rig_returns_no_error :
    (apply_mocap_data (some ⟨false, [], false, false⟩)
        ([⟨"Bone", ⟨0, 0, 0⟩, ⟨1, 0, 0⟩⟩], ["applied"])).1 = none ∧
    apply_mocap_data (some ⟨false, [], false, false⟩)
        ([⟨"Bone", ⟨0, 0, 0⟩, ⟨1, 0, 0⟩⟩], ["applied"]) =
      (none, [], ["Error: Target object is not a valid Armature."]) :=
  ⟨rfl, rfl⟩

/-- C5 amended: when the target rig is invalid (absent or not an
armature) or cannot be put into pose mode, `apply_mocap_data` aborts only
that single apply call — no bone writes, the body is not executed — and
reports the condition through a console log line, returning `None` (no
`RigStateError` value) to the caller. -/
theorem rig_state_error_logged_not_returned (arm : Option Armature)
    (body : List BoneWrite × List String) :
    (invalidRig arm →
      apply_mocap_data arm body =
        (none, [], ["Error: Target object is not a valid Armature."])) ∧
    (∀ a, arm = some a → a.isArmature = true → a.inPoseMode = false →
      a.canSetPoseMode = false →
      apply_mocap_data arm body =
        (none, [],
         ["Error: Could not set Pose Mode on armature. Aborting update."])) := by
  constructor
  · intro h
    rcases h with h | ⟨a, rfl, ha⟩
    · subst h; rfl
    · simp [apply_mocap_data, ha]
  · rintro a rfl ha hp hc
    simp [apply_mocap_data, ha, hp, hc]

/-- Witness for the amended C5: a missing rig and a valid armature that
cannot enter pose mode, each with a body that would otherwise write. -/
theorem rig_state_error_logged_not_returned_witness :
    apply_mocap_data none ([⟨"Bone", ⟨0, 0, 0⟩, ⟨1, 0, 0⟩⟩], ["applied"]) =
      (none, [], ["Error: Target object is not a valid Armature."]) ∧
    apply_mocap_data (some ⟨true, [], false, false⟩)
        ([⟨"Bone", ⟨0, 0, 0⟩, ⟨1, 0, 0⟩⟩], ["applied"]) =
      (none, [],
       ["Error: Could not set Pose Mode on armature. Aborting update."]) :=
  ⟨(rig_state_error_logged_not_returned none _).1 (Or.inl rfl),
   (rig_state_error_logged_not_returned _ _).2 _ rfl rfl rfl rfl⟩

/-- C8: the calibration composition rule of `apply_rotation`.  With a
recorded offset `q_cal` for the bone, the rotation written is the left
composition `q_cal ∘ q_in`; with no recorded offset it is exactly `q_in`;
and when the store holds the inverse of a unit rotation `R` (as
`calibrate_pose` records) and `R` itself arrives, the written rotation is
the identity. -/
theorem apply_rotation_composes_calibration_on_left
    (offsets : List (String × Quat)) (bone_name : String)
    (q_cal q_in R : Quat) :
    (alookup offsets bone_name = some q_cal →
      apply_rotation offsets bone_name [q_in.w, q_in.x, q_in.y, q_in.z] =
        some (q_cal.mul q_in)) ∧
    (alookup offsets bone_name = none →
      apply_rotation offsets bone_name [q_in.w, q_in.x, q_in.y, q_in.z] =
        some q_in) ∧
    (alookup offsets bone_name = some R.inverted → R.normSq = 1 →
      apply_rotation offsets bone_name [R.w, R.x, R.y, R.z] =
        some Quat.one) := by
  refine ⟨?_, ?_, ?_⟩
  · intro h
    simp [apply_rotation, h]
  · intro h
    simp [apply_rotation, h]
  · intro h hn
    simp only [apply_rotation, h]
    congr 1
    have hn' : R.w * R.w + R.x * R.x + R.y * R.y + R.z * R.z = 1 := hn
    simp only [Quat.inverted, Quat.mul, Quat.one, hn]
    obtain ⟨w, x, y, z⟩ := R
    simp only [Quat.mk.injEq] at hn' ⊢
    simp only [div_one]
    refine ⟨by linear_combination hn', by ring, by ring, by ring⟩

/-- Witness for C8: the offset store holds the inverse of the 180-degree
rotation about x; composition, the no-offset path, and the zero-offset
round trip, each at concrete quaternions. -/
theorem apply_rotation_composes_calibration_on_left_witness :
    apply_rotation [("Bone", Quat.inverted ⟨0, 1, 0, 0⟩)] "Bone"
        [0, -1, 0, 0] =
      some ((Quat.inverted ⟨0, 1, 0, 0⟩).mul ⟨0, -1, 0, 0⟩) ∧
    apply_rotation [] "Bone" [0, -1, 0, 0] = some ⟨0, -1, 0, 0⟩ ∧
    apply_rotation [("Bone", Quat.inverted ⟨0, 1, 0, 0⟩)] "Bone"
        [0, 1, 0, 0] = some Quat.one :=
  ⟨(apply_rotation_composes_calibration_on_left
      [("Bone", Quat.inverted ⟨0, 1, 0, 0⟩)] "Bone"
      (Quat.inverted ⟨0, 1, 0, 0⟩) ⟨0, -1, 0, 0⟩ ⟨0, 1, 0, 0⟩).1 rfl,
   (apply_rotation_composes_calibration_on_left [] "Bone"
      Quat.one ⟨0, -1, 0, 0⟩ Quat.one).2.1 rfl,
   (apply_rotation_composes_calibration_on_left
      [("Bone", Quat.inverted ⟨0, 1, 0, 0⟩)] "Bone"
      Quat.one ⟨0, 1, 0, 0⟩ ⟨0, 1, 0, 0⟩).2.2 rfl
      (by simp [Quat.normSq])⟩

/-- C9: two-bone IK boundaries.  With rest lengths `L1 = L2 = 1` and the
target exactly `2 - ε` from the root along the x axis (`ε = 1/1000`, the
solver's clamping margin), the solved joint position is exactly midway
between root and target; with the target at distance 0 — for any bone
lengths and bone availability — the solver takes the `d < eps` early
return (`none`): no bone is touched and the division defining `a` is
never reached. -/
theorem two_bone_ik_boundary (root : Vec3R) (hU hL : Bool) (L1 L2 : ℝ) :
    two_bone_ik true true 1 1 root (root.add ⟨2 - 1/1000, 0, 0⟩) =
      some ((root.add (root.add ⟨2 - 1/1000, 0, 0⟩)).smul (1/2)) ∧
    two_bone_ik hU hL L1 L2 root root = none := by
  constructor
  · simp only [two_bone_ik]
    rw [if_neg (by simp)]
    have hsub : (root.add ⟨2 - 1/1000, 0, 0⟩).sub root = ⟨2 - 1/1000, 0, 0⟩ := by
      simp only [Vec3R.add, Vec3R.sub, Vec3R.mk.injEq]
      refine ⟨by ring, by ring, by ring⟩
    rw [hsub]
    have hlen : (Vec3R.mk (2 - 1/1000) 0 0).length = 2 - 1/1000 := by
      simp only [Vec3R.length]
      rw [show ((2:ℝ) - 1/1000) ^ 2 + (0:ℝ) ^ 2 + (0:ℝ) ^ 2 =
        ((2:ℝ) - 1/1000) ^ 2 by ring]
      rw [Real.sqrt_sq (by norm_num)]
    rw [hlen]
    rw [if_neg (by norm_num)]
    have hclamp : min (max (2 - 1/1000) (|(1:ℝ) - 1| + 1/1000))
        (1 + 1 - 1/1000) = 2 - 1/1000 := by
      rw [show |(1:ℝ) - 1| = 0 by norm_num]
      rw [max_eq_left (by norm_num), min_eq_left (by norm_num)]
    rw [hclamp]
    simp only [Vec3R.normalized, hlen, Vec3R.smul, Vec3R.add, Vec3R.mk.injEq,
      Option.some.injEq]
    norm_num
    refine ⟨by ring, by ring, by ring⟩
  · simp only [two_bone_ik]
    by_cases h : hU = false ∨ hL = false
    · rw [if_pos h]
    · rw [if_neg h]
      have hsub : root.sub root = ⟨0, 0, 0⟩ := by
        simp [Vec3R.sub]
      rw [hsub]
      have hlen : (Vec3R.mk 0 0 0).length = 0 := by
        simp [Vec3R.length]
      rw [hlen]
      rw [if_pos (by norm_num)]

/-- A successful `findMatch` result is one of the armature's pose-bone
names. -/
theorem findMatch_mem {ns : List String} {pat f : String}
    (h : findMatch ns pat = some f) : f ∈ ns := by
  unfold findMatch at h
  by_cases hc : ns.contains pat
  · rw [if_pos hc] at h
    cases h
    exact List.mem_of_elem_eq_true hc
  · rw [if_neg hc] at h
    exact List.mem_of_find?_eq_some h

/-- Every item accumulated by the auto-mapper's population loop satisfies
a property that holds of the initial accumulator and of every appended
match. -/
theorem automap_foldl_mem {ns : List String} (P : MappingItem → Prop)
    (ps : List (String × String)) :
    ∀ acc : List MappingItem, (∀ it ∈ acc, P it) →
      (∀ p ∈ ps, ∀ f, findMatch ns p.2 = some f → P ⟨p.1, f⟩) →
      ∀ it ∈ ps.foldl (fun acc p =>
          match findMatch ns p.2 with
          | some found => acc ++ [⟨p.1, found⟩]
          | none => acc) acc, P it := by
  induction ps with
  | nil =>
      intro acc hacc _ it hit
      exact hacc it hit
  | cons p ps ih =>
      intro acc hacc hstep it hit
      simp only [List.foldl_cons] at hit
      cases hfm : findMatch ns p.2 with
      | none =>
          rw [hfm] at hit
          exact ih acc hacc (fun q hq => hstep q (List.mem_cons_of_mem p hq))
            it hit
      | some f =>
          rw [hfm] at hit
          refine ih (acc ++ [⟨p.1, f⟩]) ?_
            (fun q hq => hstep q (List.mem_cons_of_mem p hq)) it hit
          intro j hj
          rcases List.mem_append.mp hj with hj | hj
          · exact hacc j hj
          · rw [List.mem_singleton.mp hj]
            exact hstep p (List.mem_cons_self p ps) f hfm

/-- C10: the start-capture operator's auto-mapping step.  With an
armature target, `auto_map_mixamorig` discards the entire prior mapping
collection (the result does not depend on it) and repopulates it only
with entries whose mocap name comes from the fixed `wanted` table and
whose Blender name is a pose bone of that armature. -/
theorem start_capture_resets_bone_mappings (a : Armature)
    (h : a.isArmature = true) (coll : List MappingItem) :
    auto_map_mixamorig (some a) coll = auto_map_mixamorig (some a) [] ∧
    (auto_map_mixamorig (some a) coll).all
      (fun it => a.poseNames.contains it.blender_name &&
        (wanted.map Prod.fst).contains it.mocap_name) = true := by
  have hred : ∀ c : List MappingItem, auto_map_mixamorig (some a) c =
      wanted.foldl (fun acc p =>
        match findMatch a.poseNames p.2 with
        | some found => acc ++ [⟨p.1, found⟩]
        | none => acc) [] := by
    intro c
    simp [auto_map_mixamorig, h]
  constructor
  · rw [hred coll, hred []]
  · rw [hred coll]
    refine List.all_eq_true.mpr ?_
    refine automap_foldl_mem
      (fun it => (a.poseNames.contains it.blender_name &&
        (wanted.map Prod.fst).contains it.mocap_name) = true)
      wanted [] (by intro it hit; simp at hit) ?_
    intro p hp f hf
    refine (Bool.and_eq_true _ _).mpr ⟨?_, ?_⟩
    · exact List.elem_eq_true_of_mem (findMatch_mem hf)
    · exact List.elem_eq_true_of_mem (List.mem_map_of_mem Prod.fst hp)

/-- Witness for C10: a mixamorig armature with one bone and a
previously user-entered mapping that the call discards. -/
theorem start_capture_resets_bone_mappings_witness :
    auto_map_mixamorig (some ⟨true, [("mixamorig:Hips", Quat.one)], true, true⟩)
        [⟨"UserJoint", "UserBone"⟩] =
      auto_map_mixamorig
        (some ⟨true, [("mixamorig:Hips", Quat.one)], true, true⟩) [] ∧
    (auto_map_mixamorig (some ⟨true, [("mixamorig:Hips", Quat.one)], true, true⟩)
        [⟨"UserJoint", "UserBone"⟩]).all
      (fun it =>
        (Armature.poseNames
            ⟨true, [("mixamorig:Hips", Quat.one)], true, true⟩).contains
          it.blender_name &&
        (wanted.map Prod.fst).contains it.mocap_name) = true :=
  start_capture_resets_bone_mappings
    ⟨true, [("mixamorig:Hips", Quat.one)], true, true⟩ rfl
    [⟨"UserJoint", "UserBone"⟩]

end LiveMocap
